import Mathlib

/-!
Verification of the jobly repository's core logic: the partial-update SQL
compiler (`helpers/sql.js`), the filter-query builders of `Company.findAll`
and `Job.findAll`, `Company.get`, `Job.update`, and the list-route query
checks (`checkCompanyGetQuery`, `checkJobGetQuery`).

JavaScript values flowing through these functions are modelled by `JVal`
(null/undefined, NaN, numbers as exact rationals, strings, booleans); objects
used as field→value records are modelled as ordered association lists, which
matches JS object key-iteration order.  The database is modelled as lists of
rows, and the SQL strings the code produces are given a semantics by an
evaluator that pattern-matches on the exact clause texts the builders emit.
-/

namespace Jobly

/-- A JavaScript value, as far as this codebase's data paths need:
`null` also stands for `undefined` (the two behave identically in every
code path modelled here: both are falsy and both are loosely `== null`).
Numbers are modelled as exact rationals. -/
inductive JVal where
  | null
  | nan
  | num (q : ℚ)
  | str (s : String)
  | bool (b : Bool)
deriving DecidableEq, Repr

/-- JS truthiness: `null`/`undefined`, `NaN`, `0`, `""` and `false` are falsy. -/
def jsTruthy : JVal → Bool
  | .null => false
  | .nan => false
  | .num q => decide (q ≠ 0)
  | .str s => decide (s ≠ "")
  | .bool b => b

/-- JS loose `x != null` (false exactly for null/undefined). -/
def jsNotNull : JVal → Bool
  | .null => false
  | _ => true

/-- Digit characters to the natural number they denote (most significant first). -/
def digitsToNat : List Char → Nat → Nat
  | [], acc => acc
  | c :: cs, acc => digitsToNat cs (acc * 10 + (c.toNat - 48))

/-- JS `Number(string)` restricted to plain decimal numerals: optional
whitespace, optional sign, digits with an optional fractional part.
The empty (or all-whitespace) string converts to 0, as in JS; strings
that do not parse give `none`, standing for NaN.  Exponent, hexadecimal
and `Infinity` forms are not modelled (they never arise in this API's
query strings). -/
def jsStrToNum (s : String) : Option ℚ :=
  let cs := ((s.toList.dropWhile (· = ' ')).reverse.dropWhile (· = ' ')).reverse
  if cs = [] then some 0
  else
    let signed : ℚ × List Char :=
      match cs with
      | '-' :: rest => (-1, rest)
      | '+' :: rest => (1, rest)
      | _ => (1, cs)
    let intPart := signed.2.takeWhile Char.isDigit
    let rest1 := signed.2.dropWhile Char.isDigit
    match rest1 with
    | [] => if intPart = [] then none else some (signed.1 * (digitsToNat intPart 0 : ℚ))
    | '.' :: frac =>
      if frac.all Char.isDigit ∧ (intPart ≠ [] ∨ frac ≠ []) then
        some (signed.1 *
          ((digitsToNat intPart 0 : ℚ) + (digitsToNat frac 0 : ℚ) / ((10 : ℚ) ^ frac.length)))
      else none
    | _ => none

/-- JS `ToNumber`; `none` stands for NaN. -/
def jsToNumber : JVal → Option ℚ
  | .null => some 0
  | .nan => none
  | .num q => some q
  | .str s => jsStrToNum s
  | .bool b => some (if b then 1 else 0)

/-- JS `isNaN(x)` (which coerces with `ToNumber` first). -/
def jsIsNaN (v : JVal) : Bool := (jsToNumber v).isNone

/-- JS string interpolation of a value.  The rendering of non-integral
numbers is simplified (no claim depends on it: numbers interpolated by the
code reach the evaluator only after a numeric re-parse or not at all). -/
def jsToString : JVal → String
  | .null => "null"
  | .nan => "NaN"
  | .num q => if q.den = 1 then toString q.num else toString q
  | .str s => s
  | .bool b => if b then "true" else "false"

/-- JS `<` via numeric coercion; any NaN operand compares false.
(The string–string lexicographic case of JS `<` is not modelled: the only
caller coerces both operands to numbers with unary `+` first.) -/
def jsLt (a b : JVal) : Bool :=
  match jsToNumber a, jsToNumber b with
  | some x, some y => decide (x < y)
  | _, _ => false

/-- The two domain error classes of `expressError.js` that the modelled
code raises: `BadRequestError` (HTTP 400) and `NotFoundError` (HTTP 404). -/
inductive Err where
  | badRequest (msg : String)
  | notFound (msg : String)
deriving DecidableEq, Repr

/-! ## helpers/sql.js — sqlForPartialUpdate -/

/-- `jsToSql[colName] || colName`: the override mapping's entry for this
field, falling back to the field name when the entry is absent — or when it
is present but falsy (the empty string), since JS `||` also falls through
on a falsy left operand. -/
def resolveCol (jsToSql : List (String × String)) (colName : String) : String :=
  match jsToSql.lookup colName with
  | some s => if s = "" then colName else s
  | none => colName

/-- `keys.map((colName, idx) => `"${jsToSql[colName] || colName}"=$${idx + 1}`)`,
written with an explicit running index (`idx` starts at 0, placeholders at 1). -/
def sqlUpdateFragsGo (jsToSql : List (String × String)) : List String → Nat → List String
  | [], _ => []
  | k :: ks, idx =>
    ("\"" ++ resolveCol jsToSql k ++ "\"=$" ++ toString (idx + 1)) ::
      sqlUpdateFragsGo jsToSql ks (idx + 1)

def sqlUpdateFrags (keys : List String) (jsToSql : List (String × String)) : List String :=
  sqlUpdateFragsGo jsToSql keys 0

/-- The `{ setCols, values }` result of `sqlForPartialUpdate`. -/
structure SqlUpdate where
  setCols : String
  values : List JVal
deriving DecidableEq, Repr

/-- `sqlForPartialUpdate(dataToUpdate, jsToSql)` from `helpers/sql.js`.
`dataToUpdate` is the field→value object in key-iteration order;
`Object.keys` and `Object.values` of the same object agree on that order,
hence the two projections of the list. -/
def sqlForPartialUpdate (dataToUpdate : List (String × JVal))
    (jsToSql : List (String × String)) : Except Err SqlUpdate :=
  let keys := dataToUpdate.map Prod.fst
  if keys.length = 0 then .error (.badRequest "No data")
  else .ok ⟨String.intercalate ", " (sqlUpdateFrags keys jsToSql), dataToUpdate.map Prod.snd⟩

/-! ## Database rows -/

/-- A row of the `companies` table, in API shape (`num_employees` and
`logo_url` are nullable). -/
structure CompanyRow where
  handle : String
  name : String
  description : String
  numEmployees : Option ℚ
  logoUrl : Option String
deriving DecidableEq, Repr

/-- A row of the `jobs` table, in API shape (`salary` and `equity` are
nullable; `equity` is a NUMERIC column, modelled exactly as a rational). -/
structure JobRow where
  id : Int
  title : String
  salary : Option ℚ
  equity : Option ℚ
  companyHandle : String
deriving DecidableEq, Repr

/-- The relational store backing the API. -/
structure DB where
  companies : List CompanyRow
  jobs : List JobRow
deriving DecidableEq, Repr

/-! ## Filter-query builders (Company.findAll / Job.findAll) -/

/-- One appended filter, as in the repeated four-line blocks of
`Company.findAll` / `Job.findAll`: the state is
`(whereClause, args, argIndex)`; the code appends `"WHERE "` when
`argIndex == 1` and `"AND "` otherwise, appends the clause text at the
current index, pushes the argument (if the filter has one) and then
increments `argIndex` (only when an argument was pushed — the `hasEquity`
block pushes nothing and leaves `argIndex` alone). -/
def addClause (st : String × List JVal × Nat) (text : Nat → String) (arg : Option JVal) :
    String × List JVal × Nat :=
  (st.1 ++ (if st.2.2 = 1 then "WHERE " else "AND ") ++ text st.2.2,
   st.2.1 ++ (match arg with | some a => [a] | none => []),
   st.2.2 + (match arg with | some _ => 1 | none => 0))

/-- The `(whereClause, args)` built by `Company.findAll(nameFilter,
minEmployees, maxEmployees)` in `models/company.js` (lines 47–88), up to the
point where they are handed to `db.query`.  The min/max validity check runs
before any clause is built. -/
def Company.findAllQuery (nameFilter minEmployees maxEmployees : JVal) :
    Except Err (String × List JVal) :=
  if jsNotNull minEmployees && jsNotNull maxEmployees && jsLt maxEmployees minEmployees then
    .error (.badRequest ("Filter minimum (" ++ jsToString minEmployees ++
      ") specified is greater than maximum (" ++ jsToString maxEmployees ++ ")"))
  else
    let st0 : String × List JVal × Nat := ("", [], 1)
    let st1 := if jsTruthy nameFilter then
        addClause st0 (fun i => "name ILIKE $" ++ toString i ++ " ")
          (some (.str ("%" ++ jsToString nameFilter ++ "%")))
      else st0
    let st2 := if jsTruthy minEmployees then
        addClause st1 (fun i => "num_employees >= $" ++ toString i ++ " ") (some minEmployees)
      else st1
    let st3 := if jsTruthy maxEmployees then
        addClause st2 (fun i => "num_employees <= $" ++ toString i ++ " ") (some maxEmployees)
      else st2
    .ok (st3.1, st3.2.1)

/-- The `(whereClause, args)` built by `Job.findAll(titleFilter, minSalary,
hasEquity)` in `models/job.js` (lines 204–228).  `minSalary` is pushed as the
interpolated string `` `${minSalary}` ``; the `hasEquity` block appends
`equity > 0` with no placeholder and no argument. -/
def Job.findAllQuery (titleFilter minSalary hasEquity : JVal) : String × List JVal :=
  let st0 : String × List JVal × Nat := ("", [], 1)
  let st1 := if jsTruthy titleFilter then
      addClause st0 (fun i => "title ILIKE $" ++ toString i ++ " ")
        (some (.str ("%" ++ jsToString titleFilter ++ "%")))
    else st0
  let st2 := if jsTruthy minSalary then
      addClause st1 (fun i => "salary >= $" ++ toString i ++ " ")
        (some (.str (jsToString minSalary)))
    else st1
  let st3 := if jsTruthy hasEquity then
      addClause st2 (fun _ => "equity > 0 ") none
    else st2
  (st3.1, st3.2.1)

/-! ## Semantics of the generated WHERE clauses

The repository hands the built clause strings to PostgreSQL (an external
collaborator).  The evaluator below assigns each clause text the builders can
emit its relational meaning; the argument list is consumed positionally, as
`$1`, `$2`, … are by the database driver. -/

/-- Character-list prefix test (first argument a prefix of the second). -/
def charsPrefixCheck : List Char → List Char → Bool
  | [], _ => true
  | _ :: _, [] => false
  | a :: as, b :: bs => a = b && charsPrefixCheck as bs

/-- Substring occurrence test on character lists (needle second). -/
def charsContain : List Char → List Char → Bool
  | [], needle => charsPrefixCheck needle []
  | h :: t, needle => charsPrefixCheck needle (h :: t) || charsContain t needle

/-- `x ILIKE '%sub%'`: case-insensitive containment of `sub`
(patterns other than a `%…%` wrapping of a literal are not produced by the
builders, whose user input is embedded between two `%`). -/
def ilikeContains (sub s : String) : Bool :=
  charsContain (s.toList.map Char.toLower) (sub.toList.map Char.toLower)

/-- The `i`-th positional argument of a parameterized query. -/
def argAt (args : List JVal) (i : Nat) : JVal := args.getD i JVal.null

/-- Strip the two `%` the builder wrapped around the user's pattern text. -/
def likeInner (arg : JVal) : String := ((jsToString arg).drop 1).dropRight 1

/-- `name ILIKE $k` on a company row. -/
def matchNameLike (arg : JVal) (c : CompanyRow) : Bool := ilikeContains (likeInner arg) c.name

/-- `num_employees >= $k` on a company row; SQL NULL fails the comparison,
and a NaN-ish argument (never produced by the builders) matches nothing. -/
def matchNumGe (arg : JVal) (c : CompanyRow) : Bool :=
  match c.numEmployees, jsToNumber arg with
  | some m, some q => decide (q ≤ m)
  | _, _ => false

/-- `num_employees <= $k` on a company row. -/
def matchNumLe (arg : JVal) (c : CompanyRow) : Bool :=
  match c.numEmployees, jsToNumber arg with
  | some m, some q => decide (m ≤ q)
  | _, _ => false

/-- `title ILIKE $k` on a job row. -/
def matchTitleLike (arg : JVal) (j : JobRow) : Bool := ilikeContains (likeInner arg) j.title

/-- `salary >= $k` on a job row; SQL NULL fails the comparison. -/
def matchSalaryGe (arg : JVal) (j : JobRow) : Bool :=
  match j.salary, jsToNumber arg with
  | some s, some q => decide (q ≤ s)
  | _, _ => false

/-- `equity > 0` on a job row; SQL NULL fails the comparison. -/
def matchEquityPos (j : JobRow) : Bool :=
  match j.equity with
  | some q => decide (0 < q)
  | none => false

/-- Meaning of the company SELECT for each WHERE clause `Company.findAllQuery`
can produce (the eight subsets of the three filters, numbered as built). -/
def evalCompanyQuery (cl : String) (args : List JVal) (rows : List CompanyRow) :
    List CompanyRow :=
  if cl = "" then rows
  else if cl = "WHERE name ILIKE $1 " then
    rows.filter (matchNameLike (argAt args 0))
  else if cl = "WHERE num_employees >= $1 " then
    rows.filter (matchNumGe (argAt args 0))
  else if cl = "WHERE num_employees <= $1 " then
    rows.filter (matchNumLe (argAt args 0))
  else if cl = "WHERE name ILIKE $1 AND num_employees >= $2 " then
    rows.filter (fun c => matchNameLike (argAt args 0) c && matchNumGe (argAt args 1) c)
  else if cl = "WHERE name ILIKE $1 AND num_employees <= $2 " then
    rows.filter (fun c => matchNameLike (argAt args 0) c && matchNumLe (argAt args 1) c)
  else if cl = "WHERE num_employees >= $1 AND num_employees <= $2 " then
    rows.filter (fun c => matchNumGe (argAt args 0) c && matchNumLe (argAt args 1) c)
  else if cl = "WHERE name ILIKE $1 AND num_employees >= $2 AND num_employees <= $3 " then
    rows.filter (fun c => matchNameLike (argAt args 0) c && matchNumGe (argAt args 1) c &&
      matchNumLe (argAt args 2) c)
  else []

/-- Meaning of the job SELECT for each WHERE clause `Job.findAllQuery` can
produce. -/
def evalJobQuery (cl : String) (args : List JVal) (rows : List JobRow) : List JobRow :=
  if cl = "" then rows
  else if cl = "WHERE title ILIKE $1 " then
    rows.filter (matchTitleLike (argAt args 0))
  else if cl = "WHERE salary >= $1 " then
    rows.filter (matchSalaryGe (argAt args 0))
  else if cl = "WHERE equity > 0 " then
    rows.filter matchEquityPos
  else if cl = "WHERE title ILIKE $1 AND salary >= $2 " then
    rows.filter (fun j => matchTitleLike (argAt args 0) j && matchSalaryGe (argAt args 1) j)
  else if cl = "WHERE title ILIKE $1 AND equity > 0 " then
    rows.filter (fun j => matchTitleLike (argAt args 0) j && matchEquityPos j)
  else if cl = "WHERE salary >= $1 AND equity > 0 " then
    rows.filter (fun j => matchSalaryGe (argAt args 0) j && matchEquityPos j)
  else if cl = "WHERE title ILIKE $1 AND salary >= $2 AND equity > 0 " then
    rows.filter (fun j => matchTitleLike (argAt args 0) j && matchSalaryGe (argAt args 1) j &&
      matchEquityPos j)
  else []

/-- `Company.findAll` end to end: build the clause, run the SELECT.
(The `ORDER BY name` of the SELECT is not modelled; no claim concerns the
order of company results.) -/
def Company.findAll (db : DB) (nameFilter minEmployees maxEmployees : JVal) :
    Except Err (List CompanyRow) :=
  (Company.findAllQuery nameFilter minEmployees maxEmployees).map
    (fun q => evalCompanyQuery q.1 q.2 db.companies)

/-- `Job.findAll` end to end (its `ORDER BY id` is likewise not modelled). -/
def Job.findAll (db : DB) (titleFilter minSalary hasEquity : JVal) : List JobRow :=
  let q := Job.findAllQuery titleFilter minSalary hasEquity
  evalJobQuery q.1 q.2 db.jobs

/-! ## Company.get -/

/-- The job summary `Company.get` attaches (`SELECT id, title, salary, equity
FROM jobs WHERE company_handle = $1 ORDER BY id`). -/
structure JobSummary where
  id : Int
  title : String
  salary : Option ℚ
  equity : Option ℚ
deriving DecidableEq, Repr

/-- The record `Company.get` returns: the company row plus its `jobs` list. -/
structure CompanyView where
  handle : String
  name : String
  description : String
  numEmployees : Option ℚ
  logoUrl : Option String
  jobs : List JobSummary
deriving DecidableEq, Repr

def jobToSummary (j : JobRow) : JobSummary := ⟨j.id, j.title, j.salary, j.equity⟩

/-- Insertion into a list kept ascending by `id`. -/
def insertByJobId (j : JobRow) : List JobRow → List JobRow
  | [] => [j]
  | x :: xs => if j.id ≤ x.id then j :: x :: xs else x :: insertByJobId j xs

/-- `ORDER BY id` of the jobs sub-query, as an insertion sort. -/
def sortByJobId : List JobRow → List JobRow
  | [] => []
  | x :: xs => insertByJobId x (sortByJobId xs)

/-- `Company.get(handle)` from `models/company.js` (lines 111–141): the first
row of `WHERE handle = $1` or `NotFoundError`, then the associated job
summaries, ordered by id, attached as `company.jobs`. -/
def Company.get (db : DB) (handle : String) : Except Err CompanyView :=
  match db.companies.find? (fun c => c.handle == handle) with
  | none => .error (.notFound ("No company: " ++ handle))
  | some c =>
    .ok ⟨c.handle, c.name, c.description, c.numEmployees, c.logoUrl,
      (sortByJobId (db.jobs.filter (fun j => j.companyHandle == handle))).map jobToSummary⟩

/-! ## Job.update -/

/-- The override mapping `Job.update` passes to `sqlForPartialUpdate`. -/
def jobJsToSql : List (String × String) := [("companyHandle", "company_handle")]

/-- One SET assignment `col = $k` applied to a job row, with the column
types of the `jobs` table (numeric columns also accept numeric strings, as
the database casts string parameters; NULL is allowed for the nullable
columns).  An unknown column or an uncastable value is a database error
(`none`). -/
def setJobCol (r : JobRow) (col : String) (v : JVal) : Option JobRow :=
  if col = "title" then
    match v with
    | .str s => some { r with title := s }
    | _ => none
  else if col = "salary" then
    match v with
    | .num q => some { r with salary := some q }
    | .str s => (jsStrToNum s).map (fun q => { r with salary := some q })
    | .null => some { r with salary := none }
    | _ => none
  else if col = "equity" then
    match v with
    | .num q => some { r with equity := some q }
    | .str s => (jsStrToNum s).map (fun q => { r with equity := some q })
    | .null => some { r with equity := none }
    | _ => none
  else if col = "company_handle" then
    match v with
    | .str s => some { r with companyHandle := s }
    | _ => none
  else none

/-- Apply the SET assignments of the compiled UPDATE left to right. -/
def applySets (r : JobRow) : List (String × JVal) → Option JobRow
  | [] => some r
  | (col, v) :: rest =>
    match setJobCol r col v with
    | some r2 => applySets r2 rest
    | none => none

/-- `Job.update(id, data)` from `models/job.js` (lines 263–286): copy the
payload, `delete dataToChange.companyHandle`, compile with
`sqlForPartialUpdate` (which throws `BadRequestError("No data")` before any
query when nothing is left), then run
`UPDATE jobs SET <setCols> WHERE id = $n RETURNING …`.  The executed
assignments pair each compiled column name (`resolveCol jobJsToSql`) with its
positional value, exactly as `setCols`/`values` are built.  Returns the
updated row and the store after the update. -/
def Job.update (db : DB) (id : Int) (data : List (String × JVal)) :
    Except Err (JobRow × DB) :=
  let dataToChange := data.filter (fun kv => kv.1 != "companyHandle")
  match sqlForPartialUpdate dataToChange jobJsToSql with
  | .error e => .error e
  | .ok _ =>
    match db.jobs.find? (fun j => j.id == id) with
    | none => .error (.notFound ("No job: " ++ toString id))
    | some r =>
      match applySets r (dataToChange.map (fun kv => (resolveCol jobJsToSql kv.1, kv.2))) with
      | none => .error (.badRequest "database error: bad column or value")
      | some r2 =>
        .ok (r2, { db with jobs := db.jobs.map (fun j => if j.id == id then r2 else j) })

/-! ## Route-level query checks and list handlers -/

/-- The per-parameter test of `checkCompanyGetQuery` (`routes/companies.js`
lines 52–66): a name outside {maxEmployees, minEmployees, name} is a bad
query; a min/max parameter whose value `isNaN` must be a number. -/
def companyParamErr (k v : String) : Option String :=
  if k ≠ "maxEmployees" ∧ k ≠ "minEmployees" ∧ k ≠ "name" then
    some ("bad query: " ++ k)
  else if (k = "minEmployees" ∨ k = "maxEmployees") ∧ jsIsNaN (.str v) then
    some (k ++ " (" ++ v ++ ") must be a number")
  else none

/-- The per-parameter test of `checkJobGetQuery` (jobs routes, lines 52–70). -/
def jobParamErr (k v : String) : Option String :=
  if k ≠ "titleFilter" ∧ k ≠ "minSalary" ∧ k ≠ "hasEquity" then
    some ("bad query: " ++ k)
  else if k = "minSalary" ∧ jsIsNaN (.str v) then
    some (k ++ " (" ++ v ++ ") must be a number")
  else none

/-- The `for … of Object.keys(queries)` loop: return the first offending
parameter's error, `null` (`none`) when all pass. -/
def checkQueryWith (perParam : String → String → Option String) :
    List (String × String) → Option String
  | [] => none
  | (k, v) :: rest =>
    match perParam k v with
    | some e => some e
    | none => checkQueryWith perParam rest

def checkCompanyGetQuery (qs : List (String × String)) : Option String :=
  checkQueryWith companyParamErr qs

def checkJobGetQuery (qs : List (String × String)) : Option String :=
  checkQueryWith jobParamErr qs

/-- An absent query parameter is `undefined` (modelled by `JVal.null`); a
present one is its string. -/
def queryVal (qs : List (String × String)) (k : String) : JVal :=
  match qs.lookup k with
  | some s => .str s
  | none => .null

/-- Unary `+` coercion the company route applies to min/maxEmployees:
`+undefined` is NaN, `+"s"` is `Number("s")`. -/
def plusCoerce (qs : List (String × String)) (k : String) : JVal :=
  match qs.lookup k with
  | none => .nan
  | some s =>
    match jsStrToNum s with
    | some q => .num q
    | none => .nan

/-- `GET /companies` (`routes/companies.js` lines 68–89): run
`checkCompanyGetQuery`, throw `BadRequestError` on its error, otherwise call
`Company.findAll(req.query.name, +req.query.minEmployees,
+req.query.maxEmployees)`. -/
def routeCompaniesGet (db : DB) (qs : List (String × String)) :
    Except Err (List CompanyRow) :=
  match checkCompanyGetQuery qs with
  | some e => .error (.badRequest e)
  | none =>
    Company.findAll db (queryVal qs "name") (plusCoerce qs "minEmployees")
      (plusCoerce qs "maxEmployees")

/-- `GET /jobs` (jobs routes, lines 72–92): run `checkJobGetQuery`, throw on
its error, otherwise call `Job.findAll(req.query.titleFilter,
req.query.minSalary, req.query.hasEquity)` with the raw query strings. -/
def routeJobsGet (db : DB) (qs : List (String × String)) : Except Err (List JobRow) :=
  match checkJobGetQuery qs with
  | some e => .error (.badRequest e)
  | none =>
    .ok (Job.findAll db (queryVal qs "titleFilter") (queryVal qs "minSalary")
      (queryVal qs "hasEquity"))

/-! ## Specification-side clause assembly (for the refinement claim C3)

The spec states the assembly rule in terms of the *position* of a filter
among the active ones: the first active filter uses "WHERE", every
subsequent one "AND", with placeholders numbered sequentially from 1 in
declared order.  The definitions below transcribe that rule; the refinement
theorem compares them with the builders above, whose WHERE/AND choice is
instead keyed on `argIndex == 1`. -/

/-- An active filter: its clause text (given its placeholder number) and its
pushed argument, if it has one. -/
structure FilterTemplate where
  text : Nat → String
  arg : Option JVal

/-- Spec assembly rule: nothing appended yet ⇔ this is the first active
filter ⇒ "WHERE", else "AND"; a filter that consumes an argument advances
the placeholder counter. -/
def specClauseGo : List FilterTemplate → String → List JVal → Nat → String × List JVal
  | [], cl, args, _ => (cl, args)
  | f :: rest, cl, args, idx =>
    specClauseGo rest
      (cl ++ (if cl = "" then "WHERE " else "AND ") ++ f.text idx)
      (args ++ (match f.arg with | some a => [a] | none => []))
      (idx + (match f.arg with | some _ => 1 | none => 0))

def specClauseAssembly (fs : List FilterTemplate) : String × List JVal :=
  specClauseGo fs "" [] 1

/-- The company filters that are active, in declared order
(name → min → max), with the clause texts and arguments of the source. -/
def companyActiveFilters (nameFilter minEmployees maxEmployees : JVal) : List FilterTemplate :=
  (if jsTruthy nameFilter then
    [⟨fun i => "name ILIKE $" ++ toString i ++ " ",
      some (.str ("%" ++ jsToString nameFilter ++ "%"))⟩] else []) ++
  (if jsTruthy minEmployees then
    [⟨fun i => "num_employees >= $" ++ toString i ++ " ", some minEmployees⟩] else []) ++
  (if jsTruthy maxEmployees then
    [⟨fun i => "num_employees <= $" ++ toString i ++ " ", some maxEmployees⟩] else [])

/-- The job filters that are active, in declared order
(title → minSalary → hasEquity). -/
def jobActiveFilters (titleFilter minSalary hasEquity : JVal) : List FilterTemplate :=
  (if jsTruthy titleFilter then
    [⟨fun i => "title ILIKE $" ++ toString i ++ " ",
      some (.str ("%" ++ jsToString titleFilter ++ "%"))⟩] else []) ++
  (if jsTruthy minSalary then
    [⟨fun i => "salary >= $" ++ toString i ++ " ", some (.str (jsToString minSalary))⟩]
   else []) ++
  (if jsTruthy hasEquity then [⟨fun _ => "equity > 0 ", none⟩] else [])

/-- The column resolution exactly as the claim wording states it: "the
override mapping's column name for the i-th field, defaulting to the field
name unchanged when no override exists" (compared against `resolveCol`). -/
def claimResolveCol (jsToSql : List (String × String)) (colName : String) : String :=
  (jsToSql.lookup colName).getD colName

/-! ## Helper lemmas -/

theorem sqlUpdateFragsGo_length (jsToSql : List (String × String)) (keys : List String)
    (idx : Nat) : (sqlUpdateFragsGo jsToSql keys idx).length = keys.length := by
  induction keys generalizing idx with
  | nil => rfl
  | cons k ks ih => simp [sqlUpdateFragsGo, ih]

theorem sqlUpdateFragsGo_get (jsToSql : List (String × String)) (keys : List String)
    (idx i : Nat) (hk : i < keys.length)
    (hf : i < (sqlUpdateFragsGo jsToSql keys idx).length) :
    (sqlUpdateFragsGo jsToSql keys idx).get ⟨i, hf⟩ =
      "\"" ++ resolveCol jsToSql (keys.get ⟨i, hk⟩) ++ "\"=$" ++ toString (idx + i + 1) := by
  induction keys generalizing idx i with
  | nil => exact absurd hk (Nat.not_lt_zero i)
  | cons k ks ih =>
    cases i with
    | zero => rfl
    | succ n =>
      have hk2 : n < ks.length := Nat.lt_of_succ_lt_succ hk
      have hf2 : n < (sqlUpdateFragsGo jsToSql ks (idx + 1)).length := by
        rw [sqlUpdateFragsGo_length]; exact hk2
      have := ih (idx + 1) n hk2 hf2
      simpa [sqlUpdateFragsGo, Nat.add_right_comm idx 1 n] using this

/-- One step of the clause builder with an argument, with the state tuple
exposed (`k + 1` since the source increments `argIndex` after a push). -/
theorem addClause_someArg (cl : String) (args : List JVal) (k : Nat) (text : Nat → String)
    (a : JVal) :
    addClause (cl, args, k) text (some a) =
      (cl ++ (if k = 1 then "WHERE " else "AND ") ++ text k, args ++ [a], k + 1) := rfl

/-- One step of the clause builder without an argument (`hasEquity`). -/
theorem addClause_noArg (cl : String) (args : List JVal) (k : Nat) (text : Nat → String) :
    addClause (cl, args, k) text none =
      (cl ++ (if k = 1 then "WHERE " else "AND ") ++ text k, args ++ [], k + 0) := rfl

theorem toString_nat_one : toString (1 : Nat) = "1" := rfl

theorem toString_nat_two : toString (2 : Nat) = "2" := rfl

theorem toString_nat_three : toString (3 : Nat) = "3" := rfl

theorem jsTruthy_bool (b : Bool) : jsTruthy (JVal.bool b) = b := rfl

theorem jsTruthy_null : jsTruthy JVal.null = false := rfl

/-! ## Claim C1 — sqlForPartialUpdate output shape -/

/-- C1 (counterexample): the claim says the column of a fragment is "the
override mapping's column name for the i-th field, defaulting to the field
name unchanged when no override exists".  With the override mapping
`{age: ""}` an override for `age` exists (so the claim predicts the column
`""`), but `jsToSql[colName] || colName` falls back to the field name on the
falsy empty-string override: the code produces the fragment `"age"=$1`, not
`""=$1`. -/
theorem sqlForPartialUpdate_empty_override_countereg :
    sqlForPartialUpdate [("age", JVal.num 25)] [("age", "")] =
      .ok ⟨"\"age\"=$1", [JVal.num 25]⟩ ∧
    claimResolveCol [("age", "")] "age" = "" ∧
    "\"age\"=$1" ≠ "\"" ++ claimResolveCol [("age", "")] "age" ++ "\"=$1" := by
  refine ⟨rfl, rfl, by decide⟩

/-- C1 (amended): for every non-empty field→value mapping and every override
mapping, `sqlForPartialUpdate` returns exactly N fragments and N values for N
input fields; the i-th fragment (in iteration order) is `"col"=$(i+1)` with
placeholders numbered sequentially from 1, where `col` is the override
mapping's column for the i-th field, defaulting to the field name unchanged
when no override exists *or the override value is the empty string*
(`resolveCol`); the fragments are joined by ", " into `setCols`, and `values`
is the input values in the same order. -/
theorem sqlForPartialUpdate_shape (data : List (String × JVal))
    (jsToSql : List (String × String)) (h : data ≠ []) :
    ∃ r, sqlForPartialUpdate data jsToSql = .ok r ∧
      r.values = data.map Prod.snd ∧
      r.values.length = data.length ∧
      (sqlUpdateFrags (data.map Prod.fst) jsToSql).length = data.length ∧
      r.setCols = String.intercalate ", " (sqlUpdateFrags (data.map Prod.fst) jsToSql) ∧
      ∀ i (hk : i < (data.map Prod.fst).length)
        (hf : i < (sqlUpdateFrags (data.map Prod.fst) jsToSql).length),
        (sqlUpdateFrags (data.map Prod.fst) jsToSql).get ⟨i, hf⟩ =
          "\"" ++ resolveCol jsToSql ((data.map Prod.fst).get ⟨i, hk⟩) ++ "\"=$" ++
            toString (i + 1) := by
  have hlen : (data.map Prod.fst).length ≠ 0 := by
    simpa using fun hc => h (List.eq_nil_of_length_eq_zero hc)
  have hok : sqlForPartialUpdate data jsToSql =
      .ok ⟨String.intercalate ", " (sqlUpdateFrags (data.map Prod.fst) jsToSql),
        data.map Prod.snd⟩ := by
    simp only [sqlForPartialUpdate]
    rw [if_neg hlen]
  refine ⟨_, hok, rfl, by simp, ?_, rfl, ?_⟩
  · rw [sqlUpdateFrags, sqlUpdateFragsGo_length]; simp
  · intro i hk hf
    have := sqlUpdateFragsGo_get jsToSql (data.map Prod.fst) 0 i hk hf
    simpa using this

/-- C1 (witness): the amended theorem at the documentation's example
`{age: 25, isAdmin: true}` with overrides `{isAdmin: "is_admin"}`. -/
theorem sqlForPartialUpdate_shape_witness :
    ∃ r, sqlForPartialUpdate [("age", JVal.num 25), ("isAdmin", JVal.bool true)]
        [("isAdmin", "is_admin")] = .ok r ∧
      r.values = [("age", JVal.num 25), ("isAdmin", JVal.bool true)].map Prod.snd ∧
      r.values.length = 2 ∧
      (sqlUpdateFrags ["age", "isAdmin"] [("isAdmin", "is_admin")]).length = 2 ∧
      r.setCols = String.intercalate ", " (sqlUpdateFrags ["age", "isAdmin"] [("isAdmin", "is_admin")]) ∧
      ∀ i (hk : i < (2 : Nat)) (hf : i < (sqlUpdateFrags ["age", "isAdmin"] [("isAdmin", "is_admin")]).length),
        (sqlUpdateFrags ["age", "isAdmin"] [("isAdmin", "is_admin")]).get ⟨i, hf⟩ =
          "\"" ++ resolveCol [("isAdmin", "is_admin")] (["age", "isAdmin"].get ⟨i, hk⟩) ++ "\"=$" ++
            toString (i + 1) := by
  have := sqlForPartialUpdate_shape [("age", JVal.num 25), ("isAdmin", JVal.bool true)]
    [("isAdmin", "is_admin")] (by decide)
  simpa using this

/-! ## Claim C2 — sqlForPartialUpdate on an empty mapping -/

/-- C2: for every override mapping, `sqlForPartialUpdate` on the empty
field→value mapping fails with the `BadRequestError("No data")`; no SET
clause or values are produced. -/
theorem sqlForPartialUpdate_empty_fails (jsToSql : List (String × String)) :
    sqlForPartialUpdate [] jsToSql = .error (Err.badRequest "No data") := rfl

/-! ## Claim C3 — WHERE/AND assembly, fixed order, sequential placeholders -/

/-- C3: in both filter compilers, for every combination of active filters
the produced `(whereClause, args)` equals the spec-side assembly
(`specClauseAssembly`) of the active filters taken in declared order
(name/title → min → max/equity): the first active filter's clause begins
with "WHERE ", every subsequent one with "AND ", and placeholders are
numbered consecutively from $1 in that order, matching the argument list
(the source keys its WHERE/AND choice on `argIndex == 1` instead of
first-ness; this theorem shows the two coincide).  The company compiler is
considered when its min/max validation passes. -/
theorem findAll_clause_assembly (nf mn mx t s e : JVal)
    (hg : (jsNotNull mn && jsNotNull mx && jsLt mx mn) = false) :
    Company.findAllQuery nf mn mx =
      .ok (specClauseAssembly (companyActiveFilters nf mn mx)) ∧
    Job.findAllQuery t s e = specClauseAssembly (jobActiveFilters t s e) := by
  constructor
  · by_cases h1 : jsTruthy nf <;> by_cases h2 : jsTruthy mn <;> by_cases h3 : jsTruthy mx <;>
      simp only [Company.findAllQuery, companyActiveFilters, specClauseAssembly, hg,
        h1, h2, h3, Bool.false_eq_true, if_true, if_false] <;> rfl
  · by_cases h1 : jsTruthy t <;> by_cases h2 : jsTruthy s <;> by_cases h3 : jsTruthy e <;>
      simp only [Job.findAllQuery, jobActiveFilters, specClauseAssembly,
        h1, h2, h3, Bool.false_eq_true, if_true, if_false] <;> rfl

/-- C3 (witness): all filters active at concrete values — the clause reads
`WHERE … $1 AND … $2 AND … $3` for companies, and for jobs the argument-free
equity filter still gets its AND. -/
theorem findAll_clause_assembly_witness :
    Company.findAllQuery (JVal.str "net") (JVal.num 2) (JVal.num 5) =
      .ok (specClauseAssembly
        (companyActiveFilters (JVal.str "net") (JVal.num 2) (JVal.num 5))) ∧
    Job.findAllQuery (JVal.str "eng") (JVal.num 50000) (JVal.bool true) =
      specClauseAssembly
        (jobActiveFilters (JVal.str "eng") (JVal.num 50000) (JVal.bool true)) :=
  findAll_clause_assembly (JVal.str "net") (JVal.num 2) (JVal.num 5)
    (JVal.str "eng") (JVal.num 50000) (JVal.bool true) (by decide)

/-! ## Claim C4 — present-but-falsy filter values -/

instance {ε α : Type} [DecidableEq ε] [DecidableEq α] : DecidableEq (Except ε α) :=
  fun x y =>
    match x, y with
    | .error a, .error b =>
      if h : a = b then .isTrue (by rw [h]) else .isFalse (by intro hc; cases hc; exact h rfl)
    | .ok a, .ok b =>
      if h : a = b then .isTrue (by rw [h]) else .isFalse (by intro hc; cases hc; exact h rfl)
    | .error _, .ok _ => .isFalse (fun hc => Except.noConfusion hc)
    | .ok _, .error _ => .isFalse (fun hc => Except.noConfusion hc)

theorem companyQuery_name_falsy (nf mn mx : JVal) (h : jsTruthy nf = false) :
    Company.findAllQuery nf mn mx = Company.findAllQuery JVal.null mn mx := by
  simp only [Company.findAllQuery, h, Bool.false_eq_true, if_false]
  rfl

theorem companyQuery_min_falsy (nf mn mx : JVal) (h : jsTruthy mn = false)
    (hg : (jsNotNull mn && jsNotNull mx && jsLt mx mn) = false) :
    Company.findAllQuery nf mn mx = Company.findAllQuery nf JVal.null mx := by
  simp only [Company.findAllQuery, h, hg, Bool.false_eq_true, if_false]
  rfl

theorem companyQuery_max_falsy (nf mn mx : JVal) (h : jsTruthy mx = false)
    (hg : (jsNotNull mn && jsNotNull mx && jsLt mx mn) = false) :
    Company.findAllQuery nf mn mx = Company.findAllQuery nf mn JVal.null := by
  simp only [Company.findAllQuery, h, hg, Bool.false_eq_true, if_false]
  have : (jsNotNull mn && jsNotNull JVal.null && jsLt JVal.null mn) = false := by
    simp [jsNotNull]
  simp only [this, Bool.false_eq_true, if_false]
  rfl

theorem jobQuery_title_falsy (t s e : JVal) (h : jsTruthy t = false) :
    Job.findAllQuery t s e = Job.findAllQuery JVal.null s e := by
  simp only [Job.findAllQuery, h, Bool.false_eq_true, if_false]
  rfl

theorem jobQuery_minSalary_falsy (t s e : JVal) (h : jsTruthy s = false) :
    Job.findAllQuery t s e = Job.findAllQuery t JVal.null e := by
  simp only [Job.findAllQuery, h, Bool.false_eq_true, if_false]
  rfl

theorem jobQuery_hasEquity_falsy (t s e : JVal) (h : jsTruthy e = false) :
    Job.findAllQuery t s e = Job.findAllQuery t s JVal.null := by
  simp only [Job.findAllQuery, h, Bool.false_eq_true, if_false]
  rfl

/-- C4 (counterexample): the claim says a present-but-falsy `maxEmployees`
(the number 0) makes the result equal the result with the parameter absent.
But the falsy 0 still takes part in the min/max validation, which runs
*before* the truthiness checks: with `minEmployees = 5`, `maxEmployees = 0`
the compiler fails `InvalidInput` while with `maxEmployees` absent it
succeeds. -/
theorem falsy_filter_countereg :
    jsTruthy (JVal.num 0) = false ∧
    Company.findAll ⟨[], []⟩ JVal.null (JVal.num 5) (JVal.num 0) =
      .error (.badRequest "Filter minimum (5) specified is greater than maximum (0)") ∧
    Company.findAll ⟨[], []⟩ JVal.null (JVal.num 5) JVal.null = .ok [] ∧
    Company.findAll ⟨[], []⟩ JVal.null (JVal.num 5) (JVal.num 0) ≠
      Company.findAll ⟨[], []⟩ JVal.null (JVal.num 5) JVal.null := by
  have h1 : Company.findAll ⟨[], []⟩ JVal.null (JVal.num 5) (JVal.num 0) =
      .error (.badRequest "Filter minimum (5) specified is greater than maximum (0)") := rfl
  have h2 : Company.findAll ⟨[], []⟩ JVal.null (JVal.num 5) JVal.null = .ok [] := rfl
  refine ⟨rfl, h1, h2, ?_⟩
  rw [h1, h2]
  exact fun hc => Except.noConfusion hc

/-- C4 (amended): a present-but-falsy filter value (0, "", null, NaN,
false) activates no filter — it contributes no clause text and no argument,
and the result equals the result with that parameter absent — for
`nameFilter`, `titleFilter`, `minSalary` and `hasEquity` unconditionally,
and for `minEmployees`/`maxEmployees` whenever the min/max pre-validation
does not fire (a falsy 0 bound still takes part in that validation, which
is the single exception the counterexample exhibits). -/
theorem falsy_filter_inactive (db : DB) (nf mn mx t s e : JVal) :
    (jsTruthy nf = false →
      Company.findAll db nf mn mx = Company.findAll db JVal.null mn mx) ∧
    (jsTruthy mn = false → (jsNotNull mn && jsNotNull mx && jsLt mx mn) = false →
      Company.findAll db nf mn mx = Company.findAll db nf JVal.null mx) ∧
    (jsTruthy mx = false → (jsNotNull mn && jsNotNull mx && jsLt mx mn) = false →
      Company.findAll db nf mn mx = Company.findAll db nf mn JVal.null) ∧
    (jsTruthy t = false → Job.findAll db t s e = Job.findAll db JVal.null s e) ∧
    (jsTruthy s = false → Job.findAll db t s e = Job.findAll db t JVal.null e) ∧
    (jsTruthy e = false → Job.findAll db t s e = Job.findAll db t s JVal.null) := by
  refine ⟨fun h => ?_, fun h hg => ?_, fun h hg => ?_, fun h => ?_, fun h => ?_, fun h => ?_⟩
  · unfold Company.findAll; rw [companyQuery_name_falsy nf mn mx h]
  · unfold Company.findAll; rw [companyQuery_min_falsy nf mn mx h hg]
  · unfold Company.findAll; rw [companyQuery_max_falsy nf mn mx h hg]
  · unfold Job.findAll; rw [jobQuery_title_falsy t s e h]
  · unfold Job.findAll; rw [jobQuery_minSalary_falsy t s e h]
  · unfold Job.findAll; rw [jobQuery_hasEquity_falsy t s e h]

/-- C4 (witness): the amended theorem at `nameFilter = ""`,
`minEmployees = 0`, `maxEmployees` absent, `titleFilter = ""`,
`minSalary = 0`, `hasEquity = false`, on an empty store. -/
theorem falsy_filter_inactive_witness :
    (Company.findAll ⟨[], []⟩ (JVal.str "") (JVal.num 0) JVal.null =
      Company.findAll ⟨[], []⟩ JVal.null (JVal.num 0) JVal.null) ∧
    (Company.findAll ⟨[], []⟩ (JVal.str "") (JVal.num 0) JVal.null =
      Company.findAll ⟨[], []⟩ (JVal.str "") JVal.null JVal.null) ∧
    (Company.findAll ⟨[], []⟩ (JVal.str "") (JVal.num 0) JVal.null =
      Company.findAll ⟨[], []⟩ (JVal.str "") (JVal.num 0) JVal.null) ∧
    (Job.findAll ⟨[], []⟩ (JVal.str "") (JVal.num 0) (JVal.bool false) =
      Job.findAll ⟨[], []⟩ JVal.null (JVal.num 0) (JVal.bool false)) ∧
    (Job.findAll ⟨[], []⟩ (JVal.str "") (JVal.num 0) (JVal.bool false) =
      Job.findAll ⟨[], []⟩ (JVal.str "") JVal.null (JVal.bool false)) ∧
    (Job.findAll ⟨[], []⟩ (JVal.str "") (JVal.num 0) (JVal.bool false) =
      Job.findAll ⟨[], []⟩ (JVal.str "") (JVal.num 0) JVal.null) := by
  have h := falsy_filter_inactive ⟨[], []⟩ (JVal.str "") (JVal.num 0) JVal.null
    (JVal.str "") (JVal.num 0) (JVal.bool false)
  exact ⟨h.1 (by decide), h.2.1 (by decide) (by decide), h.2.2.1 (by decide) (by decide),
    h.2.2.2.1 (by decide), h.2.2.2.2.1 (by decide), h.2.2.2.2.2 (by decide)⟩

/-! ## Claim C5 — min/max validation and the minEmployees filter -/

/-- "Company with numEmployees ≥ n", in the claim's words (a company whose
`num_employees` is NULL does not satisfy any such comparison). -/
def companyNumGe (n : ℚ) (c : CompanyRow) : Prop :=
  ∃ m, c.numEmployees = some m ∧ n ≤ m

theorem matchNumGe_iff (n : ℚ) (c : CompanyRow) :
    matchNumGe (JVal.num n) c = true ↔ companyNumGe n c := by
  cases h : c.numEmployees <;> simp [matchNumGe, companyNumGe, jsToNumber, h]

/-- C5 (counterexample): the claim says that when only `minEmployees = n` is
supplied the built filter selects exactly the companies with
`numEmployees ≥ n`.  At `n = 0` the supplied value is falsy, so *no* filter
is built and every company is returned — including one whose
`num_employees` is NULL, which does not satisfy `numEmployees ≥ 0`. -/
theorem company_min_zero_countereg :
    Company.findAll ⟨[⟨"c0", "C0", "d", none, none⟩], []⟩ JVal.null (JVal.num 0) JVal.null =
      .ok [⟨"c0", "C0", "d", none, none⟩] ∧
    ¬ companyNumGe 0 ⟨"c0", "C0", "d", none, none⟩ := by
  refine ⟨rfl, ?_⟩
  rintro ⟨m, hm, -⟩
  exact Option.noConfusion hm

/-- C5 (amended): `Company.findAll` fails with the `BadRequestError`
whenever both `minEmployees` and `maxEmployees` are supplied numbers with
max < min (the validation runs before any clause is built, for every
`nameFilter`); and when only `minEmployees = n` with `n ≠ 0` is supplied,
the built filter selects exactly the companies with `numEmployees ≥ n`
(for `n = 0` the truthiness check drops the filter, as the counterexample
shows). -/
theorem company_min_max_filter (db : DB) (nm : JVal) (a b n : ℚ)
    (hlt : b < a) (hn : n ≠ 0) :
    Company.findAllQuery nm (JVal.num a) (JVal.num b) =
      .error (.badRequest ("Filter minimum (" ++ jsToString (JVal.num a) ++
        ") specified is greater than maximum (" ++ jsToString (JVal.num b) ++ ")")) ∧
    ∃ l, Company.findAll db JVal.null (JVal.num n) JVal.null = .ok l ∧
      ∀ c, c ∈ l ↔ c ∈ db.companies ∧ companyNumGe n c := by
  constructor
  · have hguard : (jsNotNull (JVal.num a) && jsNotNull (JVal.num b) &&
        jsLt (JVal.num b) (JVal.num a)) = true := by
      simp [jsNotNull, jsLt, jsToNumber, hlt]
    simp only [Company.findAllQuery, hguard, if_true]
  · have ht : jsTruthy (JVal.num n) = true := by simp [jsTruthy, hn]
    have hq : Company.findAll db JVal.null (JVal.num n) JVal.null =
        .ok (db.companies.filter (matchNumGe (JVal.num n))) := by
      simp only [Company.findAll, Company.findAllQuery, ht]
      rfl
    refine ⟨_, hq, fun c => ?_⟩
    rw [List.mem_filter, matchNumGe_iff]

/-- C5 (witness): min 20 / max 10 fails; min 2 alone selects exactly the
companies with at least two employees. -/
theorem company_min_max_filter_witness :
    Company.findAllQuery JVal.null (JVal.num 20) (JVal.num 10) =
      .error (.badRequest ("Filter minimum (" ++ jsToString (JVal.num 20) ++
        ") specified is greater than maximum (" ++ jsToString (JVal.num 10) ++ ")")) ∧
    ∃ l, Company.findAll
        ⟨[⟨"c1", "C1", "d1", some 1, none⟩, ⟨"c3", "C3", "d3", some 3, none⟩], []⟩
        JVal.null (JVal.num 2) JVal.null = .ok l ∧
      ∀ c, c ∈ l ↔
        c ∈ [⟨"c1", "C1", "d1", some 1, none⟩, (⟨"c3", "C3", "d3", some 3, none⟩ : CompanyRow)] ∧
        companyNumGe 2 c :=
  company_min_max_filter
    ⟨[⟨"c1", "C1", "d1", some 1, none⟩, ⟨"c3", "C3", "d3", some 3, none⟩], []⟩
    JVal.null 20 10 2 (by norm_num) (by norm_num)

/-! ## Claim C6 — the hasEquity filter -/

/-- "Job with equity > 0", in the claim's words (NULL equity does not
satisfy it). -/
def jobEquityPos (j : JobRow) : Prop := ∃ q, j.equity = some q ∧ 0 < q

theorem matchEquityPos_iff (j : JobRow) : matchEquityPos j = true ↔ jobEquityPos j := by
  cases h : j.equity <;> simp [matchEquityPos, jobEquityPos, h]

/-- With `hasEquity = true`, `Job.findAll` is the `hasEquity`-less result
further restricted to `equity > 0` (whatever the other two filters are). -/
theorem jobFindAll_hasEquity_true (db : DB) (t s : JVal) :
    Job.findAll db t s (JVal.bool true) =
      (Job.findAll db t s JVal.null).filter matchEquityPos := by
  by_cases ht : jsTruthy t <;> by_cases hs : jsTruthy s <;>
    simp [Job.findAll, Job.findAllQuery, ht, hs, addClause_someArg, addClause_noArg,
      toString_nat_one, toString_nat_two, toString_nat_three, jsTruthy_bool, jsTruthy_null,
      evalJobQuery, argAt, List.filter_filter, Bool.and_assoc, Bool.and_comm,
      Bool.and_left_comm]

/-- C6: with `hasEquity = true`, `Job.findAll` returns only jobs with
equity > 0, whatever the other filters; with `hasEquity` false or omitted
no equity restriction is applied (`false` gives the same result as `null`,
and with everything omitted all jobs are returned); and
`GET /jobs?hasEquity=true` returns exactly the jobs with equity > 0. -/
theorem hasEquity_filter (db : DB) (t s : JVal) :
    (∀ j ∈ Job.findAll db t s (JVal.bool true), jobEquityPos j) ∧
    Job.findAll db t s (JVal.bool false) = Job.findAll db t s JVal.null ∧
    Job.findAll db JVal.null JVal.null JVal.null = db.jobs ∧
    ∃ l, routeJobsGet db [("hasEquity", "true")] = .ok l ∧
      (∀ j ∈ l, jobEquityPos j) ∧ ∀ j ∈ db.jobs, jobEquityPos j → j ∈ l := by
  refine ⟨?_, ?_, rfl, db.jobs.filter matchEquityPos, rfl, ?_, ?_⟩
  · intro j hj
    rw [jobFindAll_hasEquity_true] at hj
    exact (matchEquityPos_iff j).1 (List.mem_filter.1 hj).2
  · unfold Job.findAll
    rw [jobQuery_hasEquity_falsy t s (JVal.bool false) rfl]
  · intro j hj
    exact (matchEquityPos_iff j).1 (List.mem_filter.1 hj).2
  · intro j hj hpos
    exact List.mem_filter.2 ⟨hj, (matchEquityPos_iff j).2 hpos⟩

/-- C6 (witness): a store with one zero-equity and one positive-equity job,
no other filters. -/
theorem hasEquity_filter_witness :
    (∀ j ∈ Job.findAll ⟨[], [⟨1, "a", some 1, some 0, "c1"⟩,
        ⟨2, "b", some 2, some (1 / 100), "c1"⟩]⟩ JVal.null JVal.null (JVal.bool true),
      jobEquityPos j) ∧
    Job.findAll ⟨[], [⟨1, "a", some 1, some 0, "c1"⟩, ⟨2, "b", some 2, some (1 / 100), "c1"⟩]⟩
        JVal.null JVal.null (JVal.bool false) =
      Job.findAll ⟨[], [⟨1, "a", some 1, some 0, "c1"⟩, ⟨2, "b", some 2, some (1 / 100), "c1"⟩]⟩
        JVal.null JVal.null JVal.null ∧
    Job.findAll ⟨[], [⟨1, "a", some 1, some 0, "c1"⟩, ⟨2, "b", some 2, some (1 / 100), "c1"⟩]⟩
        JVal.null JVal.null JVal.null =
      [⟨1, "a", some 1, some 0, "c1"⟩, ⟨2, "b", some 2, some (1 / 100), "c1"⟩] ∧
    ∃ l, routeJobsGet
        ⟨[], [⟨1, "a", some 1, some 0, "c1"⟩, ⟨2, "b", some 2, some (1 / 100), "c1"⟩]⟩
        [("hasEquity", "true")] = .ok l ∧
      (∀ j ∈ l, jobEquityPos j) ∧
      ∀ j ∈ [⟨1, "a", some 1, some 0, "c1"⟩,
          (⟨2, "b", some 2, some (1 / 100), "c1"⟩ : JobRow)], jobEquityPos j → j ∈ l :=
  hasEquity_filter
    ⟨[], [⟨1, "a", some 1, some 0, "c1"⟩, ⟨2, "b", some 2, some (1 / 100), "c1"⟩]⟩
    JVal.null JVal.null

/-! ## Claim C8 — Company.get -/

theorem mem_insertByJobId (j x : JobRow) (l : List JobRow) :
    x ∈ insertByJobId j l ↔ x = j ∨ x ∈ l := by
  induction l with
  | nil => simp [insertByJobId]
  | cons a t ih =>
    by_cases h : j.id ≤ a.id
    · simp [insertByJobId, h]
    · simp only [insertByJobId, if_neg h, List.mem_cons, ih]
      tauto

theorem mem_sortByJobId (x : JobRow) (l : List JobRow) :
    x ∈ sortByJobId l ↔ x ∈ l := by
  induction l with
  | nil => simp [sortByJobId]
  | cons a t ih => simp [sortByJobId, mem_insertByJobId, ih]

theorem pairwise_insertByJobId (j : JobRow) (l : List JobRow)
    (hl : l.Pairwise (fun a b => a.id ≤ b.id)) :
    (insertByJobId j l).Pairwise (fun a b => a.id ≤ b.id) := by
  induction l with
  | nil => simp [insertByJobId]
  | cons a t ih =>
    rcases List.pairwise_cons.1 hl with ⟨ha, ht⟩
    by_cases h : j.id ≤ a.id
    · rw [insertByJobId, if_pos h]
      refine List.pairwise_cons.2 ⟨?_, hl⟩
      intro b hb
      rcases List.mem_cons.1 hb with hb | hb
      · rw [hb]; exact h
      · exact le_trans h (ha b hb)
    · rw [insertByJobId, if_neg h]
      refine List.pairwise_cons.2 ⟨?_, ih ht⟩
      intro b hb
      rcases (mem_insertByJobId j b t).1 hb with hb | hb
      · rw [hb]; exact le_of_not_le h
      · exact ha b hb

theorem pairwise_sortByJobId (l : List JobRow) :
    (sortByJobId l).Pairwise (fun a b => a.id ≤ b.id) := by
  induction l with
  | nil => simp [sortByJobId]
  | cons a t ih => exact pairwise_insertByJobId a (sortByJobId t) ih

/-- C8: `Company.get` fails with `NotFoundError` when no company has the
handle; otherwise it returns the shaped company record with the attached
list of associated job summaries (id, title, salary, equity) ordered by id
— and when the company has zero associated jobs that list is `[]`, not an
error. -/
theorem company_get_spec (db : DB) (handle : String) :
    ((∀ c ∈ db.companies, c.handle ≠ handle) →
      Company.get db handle = .error (.notFound ("No company: " ++ handle))) ∧
    ∀ c, db.companies.find? (fun c => c.handle == handle) = some c →
      ∃ v, Company.get db handle = .ok v ∧
        v.handle = c.handle ∧ v.name = c.name ∧ v.description = c.description ∧
        v.numEmployees = c.numEmployees ∧ v.logoUrl = c.logoUrl ∧
        v.jobs = (sortByJobId (db.jobs.filter (fun j => j.companyHandle == handle))).map
          jobToSummary ∧
        List.Pairwise (fun a b => a.id ≤ b.id) v.jobs ∧
        (∀ sj, sj ∈ v.jobs ↔ ∃ j ∈ db.jobs, j.companyHandle = handle ∧ sj = jobToSummary j) ∧
        ((∀ j ∈ db.jobs, j.companyHandle ≠ handle) → v.jobs = []) := by
  constructor
  · intro hno
    have hfind : db.companies.find? (fun c => c.handle == handle) = none := by
      rw [List.find?_eq_none]
      intro x hx
      simp [hno x hx]
    simp only [Company.get, hfind]
  · intro c hc
    refine ⟨⟨c.handle, c.name, c.description, c.numEmployees, c.logoUrl,
        (sortByJobId (db.jobs.filter (fun j => j.companyHandle == handle))).map jobToSummary⟩,
      by simp only [Company.get, hc], rfl, rfl, rfl, rfl, rfl, rfl, ?_, ?_, ?_⟩
    · exact (pairwise_sortByJobId _).map jobToSummary (fun a b h => h)
    · intro sj
      simp only [List.mem_map, mem_sortByJobId, List.mem_filter, beq_iff_eq]
      constructor
      · rintro ⟨j, ⟨hj, hch⟩, hf⟩
        exact ⟨j, hj, hch, hf.symm⟩
      · rintro ⟨j, hj, hch, hf⟩
        exact ⟨j, ⟨hj, hch⟩, hf.symm⟩
    · intro hno
      have hfil : db.jobs.filter (fun j => j.companyHandle == handle) = [] := by
        rw [List.filter_eq_nil_iff]
        intro j hj
        simp [hno j hj]
      rw [hfil]
      rfl

/-- C8 (witness): a store whose only company owns two jobs stored out of id
order; `get` on a missing handle errors, and `get "c1"` attaches the two
summaries sorted by id.  (A zero-jobs instance is covered by the theorem's
last conjunct discharged at this store for any other handle.) -/
theorem company_get_spec_witness :
    (Company.get
        ⟨[⟨"c1", "C1", "d", some 1, none⟩],
         [⟨2, "t2", some 6, some 0, "c1"⟩, ⟨1, "t1", some 5, none, "c1"⟩]⟩ "nope" =
      .error (.notFound "No company: nope")) ∧
    ∃ v, Company.get
        ⟨[⟨"c1", "C1", "d", some 1, none⟩],
         [⟨2, "t2", some 6, some 0, "c1"⟩, ⟨1, "t1", some 5, none, "c1"⟩]⟩ "c1" = .ok v ∧
      v.handle = "c1" ∧ v.name = "C1" ∧ v.description = "d" ∧
      v.numEmployees = some 1 ∧ v.logoUrl = none ∧
      v.jobs = (sortByJobId ([⟨2, "t2", some 6, some 0, "c1"⟩,
          ⟨1, "t1", some 5, none, "c1"⟩].filter (fun j => j.companyHandle == "c1"))).map
        jobToSummary ∧
      List.Pairwise (fun a b => a.id ≤ b.id) v.jobs ∧
      (∀ sj, sj ∈ v.jobs ↔ ∃ j ∈ [⟨2, "t2", some 6, some 0, "c1"⟩,
          (⟨1, "t1", some 5, none, "c1"⟩ : JobRow)],
        j.companyHandle = "c1" ∧ sj = jobToSummary j) ∧
      ((∀ j ∈ [⟨2, "t2", some 6, some 0, "c1"⟩,
          (⟨1, "t1", some 5, none, "c1"⟩ : JobRow)], j.companyHandle ≠ "c1") →
        v.jobs = []) := by
  constructor
  · exact (company_get_spec
      ⟨[⟨"c1", "C1", "d", some 1, none⟩],
       [⟨2, "t2", some 6, some 0, "c1"⟩, ⟨1, "t1", some 5, none, "c1"⟩]⟩ "nope").1
      (by decide)
  · exact (company_get_spec
      ⟨[⟨"c1", "C1", "d", some 1, none⟩],
       [⟨2, "t2", some 6, some 0, "c1"⟩, ⟨1, "t1", some 5, none, "c1"⟩]⟩ "c1").2
      ⟨"c1", "C1", "d", some 1, none⟩ (by decide)

/-! ## Claim C7 — Job.update and companyHandle -/

/-- C7 (the code at the failing input): `Job.update` only deletes the
*camel-case* `companyHandle` key before compiling.  A payload keyed by the
storage column name `company_handle` passes the strip untouched, is compiled
into `"company_handle"=$1`, and changes the stored handle — although the
source comments this very line with "don't allow to change company handle"
and the spec declares `companyHandle` immutable under update. -/
theorem job_update_snake_case_bypass :
    ∃ r db2,
      Job.update ⟨[], [⟨1, "t", some 100, some 0, "c1"⟩]⟩ 1
        [("company_handle", JVal.str "c2")] = .ok (r, db2) ∧
      r.companyHandle = "c2" ∧
      (⟨1, "t", some 100, some 0, "c1"⟩ : JobRow).companyHandle = "c1" := by
  refine ⟨⟨1, "t", some 100, some 0, "c2"⟩, ⟨[], [⟨1, "t", some 100, some 0, "c2"⟩]⟩,
    ?_, rfl, rfl⟩
  rfl

/-! ## Claim C10 — Job.update with only a companyHandle key -/

/-- C10: for every store, id and value, `Job.update` on a payload whose only
key is `companyHandle` throws the compiler's `BadRequestError("No data")` —
stripping the key leaves an empty mapping, and `sqlForPartialUpdate` throws
before any query runs, so no row is touched and nothing is returned. -/
theorem job_update_only_companyHandle_errs (db : DB) (id : Int) (v : JVal) :
    Job.update db id [("companyHandle", v)] = .error (.badRequest "No data") := rfl

/-! ## Claim C9 — list-route query checks -/

/-- If some present parameter fails its per-parameter test, the loop
returns an error (the first one encountered). -/
theorem checkQueryWith_isSome (perParam : String → String → Option String)
    (qs : List (String × String)) (k v : String)
    (hmem : (k, v) ∈ qs) (herr : (perParam k v).isSome) :
    ∃ msg, checkQueryWith perParam qs = some msg := by
  induction qs with
  | nil => cases hmem
  | cons kv rest ih =>
    rcases kv with ⟨k2, v2⟩
    cases hpe : perParam k2 v2 with
    | some e => exact ⟨e, by simp [checkQueryWith, hpe]⟩
    | none =>
      rcases List.mem_cons.1 hmem with heq | hmem2
      · injection heq with hk hv
        subst hk; subst hv
        rw [hpe] at herr
        exact absurd herr (by simp)
      · obtain ⟨msg, hmsg⟩ := ih hmem2
        exact ⟨msg, by simp [checkQueryWith, hpe, hmsg]⟩

theorem routeCompany_err (db : DB) (qs : List (String × String)) (msg : String)
    (h : checkCompanyGetQuery qs = some msg) :
    routeCompaniesGet db qs = .error (.badRequest msg) := by
  simp [routeCompaniesGet, h]

theorem routeJob_err (db : DB) (qs : List (String × String)) (msg : String)
    (h : checkJobGetQuery qs = some msg) :
    routeJobsGet db qs = .error (.badRequest msg) := by
  simp [routeJobsGet, h]

/-- C9: for every query set given to a list route, a parameter name outside
the resource's filter set makes the query check fail, and the route throws
the `BadRequestError` — for *every* store, i.e. before `findAll` is
consulted; a `minEmployees`/`maxEmployees`/`minSalary` parameter whose value
is non-numeric (`isNaN`) is likewise rejected. -/
theorem route_query_check (db : DB) (qs : List (String × String)) (k v : String) :
    (((k, v) ∈ qs ∧ k ≠ "name" ∧ k ≠ "minEmployees" ∧ k ≠ "maxEmployees") →
      ∃ msg, checkCompanyGetQuery qs = some msg ∧
        routeCompaniesGet db qs = .error (.badRequest msg)) ∧
    (((k, v) ∈ qs ∧ (k = "minEmployees" ∨ k = "maxEmployees") ∧
        jsIsNaN (JVal.str v) = true) →
      ∃ msg, checkCompanyGetQuery qs = some msg ∧
        routeCompaniesGet db qs = .error (.badRequest msg)) ∧
    (((k, v) ∈ qs ∧ k ≠ "titleFilter" ∧ k ≠ "minSalary" ∧ k ≠ "hasEquity") →
      ∃ msg, checkJobGetQuery qs = some msg ∧
        routeJobsGet db qs = .error (.badRequest msg)) ∧
    (((k, v) ∈ qs ∧ k = "minSalary" ∧ jsIsNaN (JVal.str v) = true) →
      ∃ msg, checkJobGetQuery qs = some msg ∧
        routeJobsGet db qs = .error (.badRequest msg)) := by
  refine ⟨?_, ?_, ?_, ?_⟩
  · rintro ⟨hmem, h1, h2, h3⟩
    have hsome : (companyParamErr k v).isSome := by
      simp [companyParamErr, h1, h2, h3]
    obtain ⟨msg, hmsg⟩ := checkQueryWith_isSome companyParamErr qs k v hmem hsome
    exact ⟨msg, hmsg, routeCompany_err db qs msg hmsg⟩
  · rintro ⟨hmem, hk, hnan⟩
    have hsome : (companyParamErr k v).isSome := by
      rcases hk with rfl | rfl <;> simp [companyParamErr, hnan]
    obtain ⟨msg, hmsg⟩ := checkQueryWith_isSome companyParamErr qs k v hmem hsome
    exact ⟨msg, hmsg, routeCompany_err db qs msg hmsg⟩
  · rintro ⟨hmem, h1, h2, h3⟩
    have hsome : (jobParamErr k v).isSome := by
      simp [jobParamErr, h1, h2, h3]
    obtain ⟨msg, hmsg⟩ := checkQueryWith_isSome jobParamErr qs k v hmem hsome
    exact ⟨msg, hmsg, routeJob_err db qs msg hmsg⟩
  · rintro ⟨hmem, hk, hnan⟩
    subst hk
    have hsome : (jobParamErr "minSalary" v).isSome := by
      simp [jobParamErr, hnan]
    obtain ⟨msg, hmsg⟩ := checkQueryWith_isSome jobParamErr qs "minSalary" v hmem hsome
    exact ⟨msg, hmsg, routeJob_err db qs msg hmsg⟩

/-- C9 (witness): the spec's example `GET /jobs?apples=6` is rejected with a
400 on any store. -/
theorem route_query_check_witness :
    ∃ msg, checkJobGetQuery [("apples", "6")] = some msg ∧
      routeJobsGet ⟨[], []⟩ [("apples", "6")] = .error (.badRequest msg) :=
  (route_query_check ⟨[], []⟩ [("apples", "6")] "apples" "6").2.2.1
    ⟨by decide, by decide, by decide, by decide⟩

end Jobly
